import Mathlib

/-
Verification of the MLOps control loop of the Bitcoin sentiment/price
prediction repository: the Prediction Ledger (src/mlops/prediction_logger.py),
the Drift Detector (src/mlops/drift_detector.py) and the Automated Retraining
controller (src/mlops/automated_retraining.py), shallowly embedded over ℚ.

Database rows are modelled as Lean structures; SQLAlchemy queries become list
filters; Python exceptions become Except values; numpy NaN (mean of an empty
list) is modelled as Option.none, with NaN comparisons evaluating to false as
in IEEE semantics.
-/

namespace BtcMlops

/-- One row of the prediction_logs table (src/shared/models.py, PredictionLog).
Timestamps are integers (seconds); floats are rationals; nullable columns are
Option-valued. -/
structure PredLog where
  id : Nat
  feature_set : String
  model_type : String
  model_version : String
  prediction : Nat
  probability_down : ℚ
  probability_up : ℚ
  confidence : ℚ
  feature_count : Nat
  actual_direction : Option Nat
  prediction_correct : Option Bool
  bitcoin_price_at_prediction : Option ℚ
  bitcoin_price_1h_later : Option ℚ
  price_change_pct : Option ℚ
  response_time_ms : ℚ
  cached_features : Bool
  predicted_at : Int
  outcome_recorded_at : Option Int
  deriving DecidableEq, Repr

/-! ## Retraining controller: should_retrain (automated_retraining.py 45-99) -/

/-- AutomatedRetraining.min_samples_required (automated_retraining.py line 42). -/
def min_samples_required : Nat := 100

/-- Common shape of the three trigger sub-checks (performance, drift, schedule):
each returns a dict carrying a should_retrain flag and an optional reason. -/
structure CheckResult where
  retrain_flag : Bool
  reason : Option String
  deriving DecidableEq, Repr

/-- Result of AutomatedRetraining._check_new_data (lines 387-418): the
sufficient_data flag and the sample count. -/
structure DataCheck where
  sufficient_data : Bool
  sample_count : Nat
  deriving DecidableEq, Repr

/-- AutomatedRetraining._check_new_data, success path (lines 397-408):
counts all FeatureData rows for the feature set and compares against
min_samples_required. -/
def check_new_data (sampleCount : Nat) : DataCheck :=
  { sufficient_data := decide (min_samples_required ≤ sampleCount)
    sample_count := sampleCount }

/-- The decision dict returned by AutomatedRetraining.should_retrain. -/
structure RetrainDecision where
  should_retrain : Bool
  reasons : List String
  data_check : DataCheck
  deriving DecidableEq, Repr

/-- AutomatedRetraining.should_retrain (lines 45-99), as a function of the four
sub-check results: accumulates the fired reasons, then applies the
insufficient-data veto of lines 84-89. -/
def should_retrain_decision (performance_check drift_check schedule_check : CheckResult)
    (data_check : DataCheck) : RetrainDecision :=
  let fired1 := performance_check.retrain_flag
  let reasons1 : List String :=
    if fired1 then [performance_check.reason.getD ""] else []
  let fired2 := fired1 || drift_check.retrain_flag
  let reasons2 := reasons1 ++
    (if drift_check.retrain_flag then [drift_check.reason.getD ""] else [])
  let fired3 := fired2 || schedule_check.retrain_flag
  let reasons3 := reasons2 ++
    (if schedule_check.retrain_flag then [schedule_check.reason.getD ""] else [])
  if !data_check.sufficient_data && fired3 then
    { should_retrain := false
      reasons := reasons3 ++ ["WARNING: Insufficient data"]
      data_check := data_check }
  else
    { should_retrain := fired3, reasons := reasons3, data_check := data_check }

end BtcMlops

namespace BtcMlops

/-- Claim C1: should_retrain returns true only if the data-sufficiency check
passed; whenever the data check reports insufficient data the decision is
false even if performance, drift and schedule all fired; equivalently
should_retrain = (performance fired OR drift fired OR schedule fired) AND
data sufficiency passed, where sufficiency is sample_count ≥ 100. -/
theorem claim_c1_data_sufficiency_veto
    (p d s : CheckResult) (dc : DataCheck) (n : Nat) :
    ((should_retrain_decision p d s dc).should_retrain
        = ((p.retrain_flag || d.retrain_flag || s.retrain_flag)
            && dc.sufficient_data)) ∧
    (check_new_data n).sufficient_data = decide (min_samples_required ≤ n) := by
  constructor
  · cases hp : p.retrain_flag <;> cases hd : d.retrain_flag <;>
      cases hs : s.retrain_flag <;> cases hdc : dc.sufficient_data <;>
      simp [should_retrain_decision, hp, hd, hs, hdc]
  · rfl

/-- Witness for C1 at concrete inputs: all three triggers fired but only 99
samples are available, so the decision is vetoed. -/
theorem claim_c1_witness :
    (should_retrain_decision
        ⟨true, some "performance degraded"⟩
        ⟨true, some "drift detected"⟩
        ⟨true, some "schedule due"⟩
        (check_new_data 99)).should_retrain = false := by
  have h := claim_c1_data_sufficiency_veto
    ⟨true, some "performance degraded"⟩
    ⟨true, some "drift detected"⟩
    ⟨true, some "schedule due"⟩
    (check_new_data 99) 99
  rw [h.1]
  decide

/-! ## Prediction Ledger: update_prediction_outcome (prediction_logger.py 100-158) -/

/-- Mutation applied to the matched row by update_prediction_outcome
(lines 127-140): computes price_change_pct (None when the stored entry price
is falsy, i.e. NULL or 0, as in the Python truthiness test of line 127) and
overwrites the five outcome columns. -/
def set_outcome (p : PredLog) (actualDirection : Nat) (price1h : ℚ) (now : Int) : PredLog :=
  let priceChangePct : Option ℚ :=
    match p.bitcoin_price_at_prediction with
    | some v => if v ≠ 0 then some ((price1h - v) / v * 100) else none
    | none => none
  { p with
    actual_direction := some actualDirection
    prediction_correct := some (p.prediction == actualDirection)
    bitcoin_price_1h_later := some price1h
    price_change_pct := priceChangePct
    outcome_recorded_at := some now }

/-- db.query(PredictionLog).filter(PredictionLog.id == prediction_id).first(). -/
def find_by_id (store : List PredLog) (pid : Nat) : Option PredLog :=
  store.find? (fun p => p.id == pid)

/-- Apply f to the first row whose id matches, leaving the rest unchanged
(the ORM mutates the single row returned by .first()). -/
def update_first (store : List PredLog) (pid : Nat) (f : PredLog → PredLog) : List PredLog :=
  match store with
  | [] => []
  | p :: rest =>
      if p.id == pid then f p :: rest else p :: update_first rest pid f

/-- PredictionLogger.update_prediction_outcome (lines 100-158): returns False
and leaves the store unchanged when the id is unknown; otherwise overwrites
the outcome columns of the matched row and returns True. There is no check
that an outcome was already recorded. -/
def update_prediction_outcome (store : List PredLog) (pid : Nat)
    (actualDirection : Nat) (price1h : ℚ) (now : Int) : Bool × List PredLog :=
  match find_by_id store pid with
  | none => (false, store)
  | some _ =>
      (true, update_first store pid (fun p => set_outcome p actualDirection price1h now))

/-- A prediction row whose outcome columns have already been filled in. -/
def recordedPred : PredLog :=
  { id := 1, feature_set := "vader", model_type := "random_forest"
    model_version := "20250101", prediction := 1
    probability_down := 3/10, probability_up := 7/10, confidence := 7/10
    feature_count := 3
    actual_direction := some 1, prediction_correct := some true
    bitcoin_price_at_prediction := some 43000
    bitcoin_price_1h_later := some 43450, price_change_pct := some 1
    response_time_ms := 12, cached_features := true
    predicted_at := 10, outcome_recorded_at := some 100 }

end BtcMlops

namespace BtcMlops

/-- Counterexample for C2: repeating the outcome update on id 1, whose outcome
columns are all non-null, returns True (no AlreadyRecordedError exists) and
replaces the recorded actual_direction some 1 by some 0, so the first outcome
does not survive. -/
theorem claim_c2_counterexample :
    (update_prediction_outcome [recordedPred] 1 0 40000 200).1 = true ∧
    (update_prediction_outcome [recordedPred] 1 0 40000 200).2.map
        (fun p => p.actual_direction) = [some 0] ∧
    recordedPred.actual_direction = some 1 := by
  decide

/-- find_by_id after update_first: updating the first matching row is visible
to a subsequent lookup, provided the update preserves the id. -/
theorem find_by_id_update_first (store : List PredLog) (pid : Nat)
    (f : PredLog → PredLog) (hf : ∀ p, (f p).id = p.id) (q : PredLog)
    (hq : find_by_id store pid = some q) :
    find_by_id (update_first store pid f) pid = some (f q) := by
  induction store with
  | nil => simp [find_by_id] at hq
  | cons p rest ih =>
      by_cases hp : p.id = pid
      · have hb : (p.id == pid) = true := by simp [hp]
        have : q = p := by
          simp [find_by_id, List.find?, hb] at hq
          exact hq.symm
        subst this
        simp [find_by_id, List.find?, update_first, hb, hf]
      · have hb : (p.id == pid) = false := by simp [hp]
        have hq' : find_by_id rest pid = some q := by
          simpa [find_by_id, List.find?, hb] using hq
        have := ih hq'
        simpa [find_by_id, List.find?, update_first, hb] using this

/-- set_outcome does not change the id column. -/
theorem set_outcome_id (p : PredLog) (d : Nat) (q : ℚ) (t : Int) :
    (set_outcome p d q t).id = p.id := rfl

/-- Claim C2 (amended): calling update_prediction_outcome twice on an id that
exists both calls return True, and after the second call the stored outcome is
the one computed from the second call (actual_direction, realized price and
outcome timestamp are overwritten): outcome updates are last-write-wins, not
write-once, and no AlreadyRecordedError is raised. -/
theorem claim_c2_second_update_overwrites (store : List PredLog) (pid : Nat)
    (d1 d2 : Nat) (q1 q2 : ℚ) (t1 t2 : Int)
    (h : (find_by_id store pid).isSome = true) :
    (update_prediction_outcome store pid d1 q1 t1).1 = true ∧
    (update_prediction_outcome
        (update_prediction_outcome store pid d1 q1 t1).2 pid d2 q2 t2).1 = true ∧
    (find_by_id
        (update_prediction_outcome
          (update_prediction_outcome store pid d1 q1 t1).2 pid d2 q2 t2).2 pid).map
      (fun p => (p.actual_direction, p.bitcoin_price_1h_later, p.outcome_recorded_at))
      = some (some d2, some q2, some t2) := by
  obtain ⟨q, hq⟩ := Option.isSome_iff_exists.mp h
  have h1 : find_by_id (update_first store pid
      (fun p => set_outcome p d1 q1 t1)) pid = some (set_outcome q d1 q1 t1) :=
    find_by_id_update_first store pid _ (fun p => set_outcome_id p d1 q1 t1) q hq
  have hu1 : update_prediction_outcome store pid d1 q1 t1
      = (true, update_first store pid (fun p => set_outcome p d1 q1 t1)) := by
    simp [update_prediction_outcome, hq]
  have h2 : find_by_id (update_first
      (update_first store pid (fun p => set_outcome p d1 q1 t1)) pid
      (fun p => set_outcome p d2 q2 t2)) pid
      = some (set_outcome (set_outcome q d1 q1 t1) d2 q2 t2) :=
    find_by_id_update_first _ pid _ (fun p => set_outcome_id p d2 q2 t2) _ h1
  have hu2 : update_prediction_outcome
      (update_first store pid (fun p => set_outcome p d1 q1 t1)) pid d2 q2 t2
      = (true, update_first
          (update_first store pid (fun p => set_outcome p d1 q1 t1)) pid
          (fun p => set_outcome p d2 q2 t2)) := by
    simp [update_prediction_outcome, h1]
  refine ⟨by rw [hu1], ?_, ?_⟩
  · rw [hu1]
    simp only
    rw [hu2]
  · rw [hu1]
    simp only
    rw [hu2]
    simp only
    rw [h2]
    rfl

/-- Witness for C2 (amended) at a concrete store: the recorded row exists, both
calls succeed and the second outcome is the one that remains. -/
theorem claim_c2_witness :
    (find_by_id [recordedPred] 1).isSome = true ∧
    (update_prediction_outcome [recordedPred] 1 0 40000 200).1 = true ∧
    (update_prediction_outcome
        (update_prediction_outcome [recordedPred] 1 0 40000 200).2 1 1 45000 300).1 = true ∧
    (find_by_id
        (update_prediction_outcome
          (update_prediction_outcome [recordedPred] 1 0 40000 200).2 1 1 45000 300).2 1).map
      (fun p => (p.actual_direction, p.bitcoin_price_1h_later, p.outcome_recorded_at))
      = some (some 1, some 45000, some 300) := by
  have h := claim_c2_second_update_overwrites [recordedPred] 1 0 1 40000 45000 200 300
    (by decide)
  exact ⟨by decide, h.1, h.2.1, h.2.2⟩

/-! ## Prediction Ledger: log_prediction (prediction_logger.py 28-98) -/

/-- The row constructed by PredictionLogger.log_prediction (lines 65-79): the
arguments are stored verbatim, outcome columns start NULL, feature_count is the
size of the features dict. No field is checked or coerced. -/
def built_log (nextId : Nat) (fs mt mv : String) (prediction : Nat)
    (probDown probUp conf : ℚ) (featureCount : Nat) (bitcoinPrice : Option ℚ)
    (respTime : ℚ) (cached : Bool) (now : Int) : PredLog :=
  { id := nextId, feature_set := fs, model_type := mt, model_version := mv
    prediction := prediction
    probability_down := probDown, probability_up := probUp, confidence := conf
    feature_count := featureCount
    actual_direction := none, prediction_correct := none
    bitcoin_price_at_prediction := bitcoinPrice
    bitcoin_price_1h_later := none, price_change_pct := none
    response_time_ms := respTime, cached_features := cached
    predicted_at := now, outcome_recorded_at := none }

/-- PredictionLogger.log_prediction (lines 28-98), success path: appends the
constructed row and returns its id. The only failure mode in the source is the
except-branch of lines 92-95 (a storage error), which returns -1; there is no
input validation of any kind. -/
def log_prediction (store : List PredLog) (nextId : Nat) (fs mt mv : String)
    (prediction : Nat) (probDown probUp conf : ℚ) (featureCount : Nat)
    (bitcoinPrice : Option ℚ) (respTime : ℚ) (cached : Bool) (now : Int) :
    Int × List PredLog :=
  ((nextId : Int),
    store ++ [built_log nextId fs mt mv prediction probDown probUp conf
      featureCount bitcoinPrice respTime cached now])

/-- Counterexample for C3: probabilities 0.9/0.9 sum to 1.8, which differs from
1 by far more than the 1e-3 tolerance, yet log_prediction reports success
(returns the new id 1, not a ValidationError) and persists the malformed
probabilities verbatim. -/
theorem claim_c3_counterexample :
    ¬ (|(9:ℚ)/10 + 9/10 - 1| ≤ 1/1000) ∧
    (log_prediction [] 1 "vader" "random_forest" "20250101" 1
        (9/10) (9/10) (9/10) 3 (some 43000) 12 true 10).1 = 1 ∧
    ((log_prediction [] 1 "vader" "random_forest" "20250101" 1
        (9/10) (9/10) (9/10) 3 (some 43000) 12 true 10).2.map
      (fun p => (p.probability_down, p.probability_up)))
      = [((9:ℚ)/10, (9:ℚ)/10)] := by
  refine ⟨by norm_num [abs_le], by decide, rfl⟩

/-- Claim C3 (amended): log_prediction performs no validation at all: even when
probability_down + probability_up differs from 1 by more than the 1e-3
tolerance, it persists the row verbatim and returns the new id; malformed input
is never rejected with a ValidationError (the only failure path is a storage
error, reported as -1). -/
theorem claim_c3_no_validation (store : List PredLog) (nextId : Nat)
    (fs mt mv : String) (prediction : Nat) (probDown probUp conf : ℚ)
    (featureCount : Nat) (bitcoinPrice : Option ℚ) (respTime : ℚ)
    (cached : Bool) (now : Int)
    (_hmal : ¬ (|probDown + probUp - 1| ≤ 1/1000)) :
    (log_prediction store nextId fs mt mv prediction probDown probUp conf
        featureCount bitcoinPrice respTime cached now).1 = (nextId : Int) ∧
    (log_prediction store nextId fs mt mv prediction probDown probUp conf
        featureCount bitcoinPrice respTime cached now).2
      = store ++ [built_log nextId fs mt mv prediction probDown probUp conf
          featureCount bitcoinPrice respTime cached now] := by
  exact ⟨rfl, rfl⟩

/-- Witness for C3 (amended) at concrete malformed input. -/
theorem claim_c3_witness :
    ¬ (|(9:ℚ)/10 + (8:ℚ)/10 - 1| ≤ 1/1000) ∧
    (log_prediction [] 7 "finbert" "random_forest" "20250101" 0
        (9/10) (8/10) (9/10) 3 none 12 false 10).1 = 7 ∧
    (log_prediction [] 7 "finbert" "random_forest" "20250101" 0
        (9/10) (8/10) (9/10) 3 none 12 false 10).2
      = [built_log 7 "finbert" "random_forest" "20250101" 0
          (9/10) (8/10) (9/10) 3 none 12 false 10] := by
  have h := claim_c3_no_validation [] 7 "finbert" "random_forest" "20250101" 0
    (9/10) (8/10) (9/10) 3 none 12 false 10 (by norm_num [abs_le])
  exact ⟨by norm_num [abs_le], h.1, by rw [h.2]; rfl⟩

/-! ## Drift Detector: detect_model_drift (drift_detector.py 182-331)

numpy's mean of an empty list is NaN; we model such a possibly-NaN real as
Option ℚ where none is NaN: NaN propagates through subtraction and every
comparison against NaN is false, exactly as in IEEE float semantics. -/

/-- np.mean over a possibly empty list: NaN (none) when empty. -/
def rmean (xs : List ℚ) : Option ℚ :=
  if xs.isEmpty then none else some (xs.sum / xs.length)

/-- Subtraction with NaN propagation. -/
def rsub : Option ℚ → Option ℚ → Option ℚ
  | some x, some y => some (x - y)
  | _, _ => none

/-- Strict comparison value > c for a possibly-NaN value: false on NaN. -/
def rgtB (x : Option ℚ) (c : ℚ) : Bool :=
  match x with
  | some v => decide (c < v)
  | none => false

/-- Boolean strict order on ℚ (Python float comparison). -/
def qltB (a b : ℚ) : Bool := decide (a < b)

/-- Python truthiness of the prediction_correct column after an IS NOT NULL
filter: only True counts as correct. -/
def is_correct (p : PredLog) : Bool := p.prediction_correct == some true

/-- Number of correct predictions in a window. -/
def correct_count (l : List PredLog) : Nat := (l.filter is_correct).length

/-- Window accuracy: correct / total. -/
def accuracy_of (l : List PredLog) : ℚ := (correct_count l : ℚ) / l.length

/-- np.mean guarded by an any(...) check (drift_detector.py 269-279): 0 when
the sub-list is empty, otherwise the mean. -/
def guarded_mean (xs : List ℚ) : ℚ :=
  if xs.isEmpty then 0 else xs.sum / xs.length

/-- Reference-window query of detect_model_drift (lines 205-215): rows of the
given feature set and model type, predicted in [refCutoff, curCutoff), with a
recorded outcome. -/
def ref_window (logs : List PredLog) (fs mt : String) (refCutoff curCutoff : Int) :
    List PredLog :=
  logs.filter (fun p => p.feature_set == fs && p.model_type == mt
    && decide (refCutoff ≤ p.predicted_at) && decide (p.predicted_at < curCutoff)
    && p.prediction_correct.isSome)

/-- Current-window query of detect_model_drift (lines 218-227): rows predicted
at or after curCutoff with a recorded outcome. -/
def cur_window (logs : List PredLog) (fs mt : String) (curCutoff : Int) :
    List PredLog :=
  logs.filter (fun p => p.feature_set == fs && p.model_type == mt
    && decide (curCutoff ≤ p.predicted_at) && p.prediction_correct.isSome)

/-- DriftDetector.accuracy_drop_threshold (drift_detector.py line 36). -/
def accuracy_drop_threshold : ℚ := 1/10

/-- The success payload of detect_model_drift (lines 296-319). -/
structure ModelDriftStats where
  reference_n : Nat
  current_n : Nat
  accuracy_reference : ℚ
  accuracy_current : ℚ
  accuracy_drop : ℚ
  accuracy_drift_detected : Bool
  calibration_degradation : Option ℚ
  drift_severity : String
  deriving DecidableEq, Repr

/-- Result of detect_model_drift: either an insufficient-data status dict
(which carries no drift_severity key) or the success payload. -/
inductive ModelDriftResult where
  | insufficient (msg : String)
  | success (stats : ModelDriftStats)
  deriving DecidableEq, Repr

/-- dict.get("drift_severity"): present only on success. -/
def md_severity : ModelDriftResult → Option String
  | .insufficient _ => none
  | .success st => some st.drift_severity

/-- The accuracy.drop entry, present only on success. -/
def md_drop : ModelDriftResult → Option ℚ
  | .insufficient _ => none
  | .success st => some st.accuracy_drop

/-- The accuracy.drift_detected entry, present only on success. -/
def md_detected : ModelDriftResult → Option Bool
  | .insufficient _ => none
  | .success st => some st.accuracy_drift_detected

/-- The metric computation of detect_model_drift on two non-empty windows
(drift_detector.py 245-319): window accuracies, the accuracy drop against the
0.10 threshold, the calibration gap of each window (reference gap unguarded,
hence possibly NaN; current gap guarded to 0), and the graded severity of
lines 287-294. -/
def model_drift_stats (ref cur : List PredLog) : ModelDriftStats :=
  let refAccuracy := accuracy_of ref
  let curAccuracy := accuracy_of cur
  let accuracyDrop := refAccuracy - curAccuracy
  let detected := qltB accuracy_drop_threshold accuracyDrop
  let refGap := rsub
    (rmean ((ref.filter is_correct).map (fun p => p.confidence)))
    (rmean ((ref.filter (fun p => !is_correct p)).map (fun p => p.confidence)))
  let curGap := guarded_mean ((cur.filter is_correct).map (fun p => p.confidence))
    - guarded_mean ((cur.filter (fun p => !is_correct p)).map (fun p => p.confidence))
  let calDeg := rsub refGap (some curGap)
  let severity :=
    if detected then "high"
    else if qltB (1/20) accuracyDrop || rgtB calDeg (1/10) then "medium"
    else if qltB 0 accuracyDrop || rgtB calDeg 0 then "low"
    else "none"
  { reference_n := ref.length
    current_n := cur.length
    accuracy_reference := refAccuracy
    accuracy_current := curAccuracy
    accuracy_drop := accuracyDrop
    accuracy_drift_detected := detected
    calibration_degradation := calDeg
    drift_severity := severity }

/-- DriftDetector.detect_model_drift (lines 182-331): the two window queries,
the empty-window insufficient-data statuses, and the metric computation. -/
def detect_model_drift (logs : List PredLog) (fs mt : String)
    (refCutoff curCutoff : Int) : ModelDriftResult :=
  let ref := ref_window logs fs mt refCutoff curCutoff
  let cur := cur_window logs fs mt curCutoff
  if ref.isEmpty then .insufficient "No reference predictions with outcomes"
  else if cur.isEmpty then .insufficient "No current predictions with outcomes"
  else .success (model_drift_stats ref cur)

/-- Severity grading as worded by the spec: high if accuracy_drop > 0.10, else
medium if accuracy_drop > 0.05 or calibration_degradation > 0.1, else low if
accuracy_drop > 0 or calibration_degradation > 0, else none. -/
def spec_model_severity (accuracyDrop : ℚ) (calibrationDegradation : Option ℚ) :
    String :=
  if qltB (1/10) accuracyDrop then "high"
  else if qltB (1/20) accuracyDrop || rgtB calibrationDegradation (1/10) then "medium"
  else if qltB 0 accuracyDrop || rgtB calibrationDegradation 0 then "low"
  else "none"

/-- A prediction row with a recorded outcome, for concrete test histories. -/
def mk_outcome_log (i : Nat) (t : Int) (pred : Nat) (correct : Bool) (conf : ℚ) :
    PredLog :=
  { id := i, feature_set := "vader", model_type := "random_forest"
    model_version := "20250101", prediction := pred
    probability_down := 0, probability_up := 1, confidence := conf
    feature_count := 3
    actual_direction := some (if correct then pred else 1 - pred)
    prediction_correct := some correct
    bitcoin_price_at_prediction := some 43000
    bitcoin_price_1h_later := some 43100, price_change_pct := none
    response_time_ms := 10, cached_features := true
    predicted_at := t, outcome_recorded_at := some (t + 3600) }

/-- Scenario history: 4 reference predictions (3 correct) in window [0, 100)
and 4 current predictions (1 correct) at or after 100, for vader/random_forest. -/
def scenario_logs : List PredLog :=
  [ mk_outcome_log 1 10 1 true 1, mk_outcome_log 2 20 1 true 1
  , mk_outcome_log 3 30 0 true 1, mk_outcome_log 4 40 1 false 1
  , mk_outcome_log 5 110 1 true 1, mk_outcome_log 6 120 0 false 1
  , mk_outcome_log 7 130 1 false 1, mk_outcome_log 8 140 0 false 1 ]

end BtcMlops

namespace BtcMlops

/-- Claim C4: for every pair of non-empty reference and current
outcome-labelled prediction sets, detect_model_drift reports
accuracy_drop = reference accuracy minus current accuracy, flags drift iff the
drop exceeds 0.10, and grades severity exactly by the spec formula (with the
code's computed calibration degradation, where a NaN degradation compares
false); in particular the 3-of-4 versus 1-of-4 scenario yields accuracy drop
0.50, drift detected, severity high. -/
theorem claim_c4_model_drift_severity :
    (∀ (logs : List PredLog) (fs mt : String) (rc cc : Int),
      ref_window logs fs mt rc cc ≠ [] → cur_window logs fs mt cc ≠ [] →
      ∃ st, detect_model_drift logs fs mt rc cc = .success st ∧
        st.accuracy_drop
          = accuracy_of (ref_window logs fs mt rc cc)
            - accuracy_of (cur_window logs fs mt cc) ∧
        st.accuracy_drift_detected = qltB accuracy_drop_threshold st.accuracy_drop ∧
        st.drift_severity
          = spec_model_severity st.accuracy_drop st.calibration_degradation) ∧
    (md_drop (detect_model_drift scenario_logs "vader" "random_forest" 0 100)
        = some (1/2) ∧
     md_detected (detect_model_drift scenario_logs "vader" "random_forest" 0 100)
        = some true ∧
     md_severity (detect_model_drift scenario_logs "vader" "random_forest" 0 100)
        = some "high") := by
  have general : ∀ (logs : List PredLog) (fs mt : String) (rc cc : Int),
      ref_window logs fs mt rc cc ≠ [] → cur_window logs fs mt cc ≠ [] →
      ∃ st, detect_model_drift logs fs mt rc cc = .success st ∧
        st.accuracy_drop
          = accuracy_of (ref_window logs fs mt rc cc)
            - accuracy_of (cur_window logs fs mt cc) ∧
        st.accuracy_drift_detected = qltB accuracy_drop_threshold st.accuracy_drop ∧
        st.drift_severity
          = spec_model_severity st.accuracy_drop st.calibration_degradation := by
    intro logs fs mt rc cc href hcur
    have h1 : (ref_window logs fs mt rc cc).isEmpty = false := by
      simp [List.isEmpty_iff, href]
    have h2 : (cur_window logs fs mt cc).isEmpty = false := by
      simp [List.isEmpty_iff, hcur]
    refine ⟨model_drift_stats (ref_window logs fs mt rc cc) (cur_window logs fs mt cc),
      ?_, rfl, rfl, rfl⟩
    simp only [detect_model_drift, h1, h2, Bool.false_eq_true, if_false]
  refine ⟨general, ?_⟩
  obtain ⟨st, hs, hdrop, hdet, hsev⟩ :=
    general scenario_logs "vader" "random_forest" 0 100 (by decide) (by decide)
  have href : ref_window scenario_logs "vader" "random_forest" 0 100
      = [mk_outcome_log 1 10 1 true 1, mk_outcome_log 2 20 1 true 1,
         mk_outcome_log 3 30 0 true 1, mk_outcome_log 4 40 1 false 1] := rfl
  have hcur : cur_window scenario_logs "vader" "random_forest" 100
      = [mk_outcome_log 5 110 1 true 1, mk_outcome_log 6 120 0 false 1,
         mk_outcome_log 7 130 1 false 1, mk_outcome_log 8 140 0 false 1] := rfl
  have hrefacc : accuracy_of (ref_window scenario_logs "vader" "random_forest" 0 100)
      = 3/4 := by
    rw [href]
    have hc : correct_count [mk_outcome_log 1 10 1 true 1, mk_outcome_log 2 20 1 true 1,
        mk_outcome_log 3 30 0 true 1, mk_outcome_log 4 40 1 false 1] = 3 := by decide
    rw [accuracy_of, hc]
    norm_num
  have hcuracc : accuracy_of (cur_window scenario_logs "vader" "random_forest" 100)
      = 1/4 := by
    rw [hcur]
    have hc : correct_count [mk_outcome_log 5 110 1 true 1, mk_outcome_log 6 120 0 false 1,
        mk_outcome_log 7 130 1 false 1, mk_outcome_log 8 140 0 false 1] = 1 := by decide
    rw [accuracy_of, hc]
    norm_num
  have hdrop2 : st.accuracy_drop = 1/2 := by
    rw [hdrop, hrefacc, hcuracc]
    norm_num
  refine ⟨?_, ?_, ?_⟩
  · rw [hs, md_drop, hdrop2]
  · rw [hs, md_detected, hdet, hdrop2]
    norm_num [qltB, accuracy_drop_threshold]
  · rw [hs, md_severity, hsev, hdrop2]
    norm_num [spec_model_severity, qltB]

/-- Witness for C4 at the concrete scenario history: both windows are
non-empty and the theorem applies. -/
theorem claim_c4_witness :
    ref_window scenario_logs "vader" "random_forest" 0 100 ≠ [] ∧
    cur_window scenario_logs "vader" "random_forest" 100 ≠ [] ∧
    (∃ st, detect_model_drift scenario_logs "vader" "random_forest" 0 100
        = .success st ∧
      st.accuracy_drop
        = accuracy_of (ref_window scenario_logs "vader" "random_forest" 0 100)
          - accuracy_of (cur_window scenario_logs "vader" "random_forest" 100) ∧
      st.accuracy_drift_detected = qltB accuracy_drop_threshold st.accuracy_drop ∧
      st.drift_severity
        = spec_model_severity st.accuracy_drop st.calibration_degradation) :=
  ⟨by decide, by decide,
    claim_c4_model_drift_severity.1 scenario_logs "vader" "random_forest" 0 100
      (by decide) (by decide)⟩

/-! ## Drift Detector: _assess_drift_severity (drift_detector.py 373-396) -/

/-- One entry of the drift_results list fed to _assess_drift_severity: the
per-feature drift flag and PSI value. -/
structure FeatureDriftRecord where
  drift_detected : Bool
  psi : ℚ
  deriving DecidableEq, Repr

/-- Number of tested features flagged as drifted (line 381). -/
def flagged_count (rs : List FeatureDriftRecord) : Nat :=
  (rs.filter (fun r => r.drift_detected)).length

/-- max(r["psi"] for r in drift_results) over a non-empty list (line 386);
0 for the empty list, which the caller never reaches. -/
def max_psi : List FeatureDriftRecord → ℚ
  | [] => 0
  | r :: rs => rs.foldl (fun m x => max m x.psi) r.psi

/-- DriftDetector._assess_drift_severity (lines 373-396): "unknown" on an
empty list, otherwise graded on the drifted fraction and the maximum PSI. -/
def assess_drift_severity (rs : List FeatureDriftRecord) : String :=
  if rs.isEmpty then "unknown"
  else
    let driftFraction : ℚ := (flagged_count rs : ℚ) / rs.length
    let maxPsi := max_psi rs
    if qltB (1/2) driftFraction || qltB (1/2) maxPsi then "high"
    else if qltB (1/4) driftFraction || qltB (3/10) maxPsi then "medium"
    else if qltB (1/10) driftFraction || qltB (1/5) maxPsi then "low"
    else "none"

/-- Severity grading as worded by the spec: with drift_fraction = flagged /
tested and max_psi the maximum PSI over tested features, high if
drift_fraction > 0.5 or max_psi > 0.5; medium if > 0.25 or > 0.3; low if
> 0.1 or > 0.2; else none. -/
def spec_feature_severity (flagged tested : Nat) (maxPsi : ℚ) : String :=
  let driftFraction : ℚ := (flagged : ℚ) / tested
  if qltB (1/2) driftFraction || qltB (1/2) maxPsi then "high"
  else if qltB (1/4) driftFraction || qltB (3/10) maxPsi then "medium"
  else if qltB (1/10) driftFraction || qltB (1/5) maxPsi then "low"
  else "none"

end BtcMlops

namespace BtcMlops

/-- Claim C5: for every non-empty list of per-feature drift results, the
overall feature-drift severity computed by _assess_drift_severity equals the
spec grading on the flagged fraction and the maximum PSI. -/
theorem claim_c5_feature_severity (rs : List FeatureDriftRecord) (h : rs ≠ []) :
    assess_drift_severity rs
      = spec_feature_severity (flagged_count rs) rs.length (max_psi rs) := by
  have h1 : rs.isEmpty = false := by simp [List.isEmpty_iff, h]
  simp only [assess_drift_severity, spec_feature_severity, h1,
    Bool.false_eq_true, if_false]

/-- Witness for C5: a concrete three-feature result list with one flagged
feature and maximum PSI 0.6 grades as high. -/
theorem claim_c5_witness :
    ([⟨true, 3/5⟩, ⟨false, 1/10⟩, ⟨false, 0⟩] : List FeatureDriftRecord) ≠ [] ∧
    assess_drift_severity [⟨true, 3/5⟩, ⟨false, 1/10⟩, ⟨false, 0⟩]
      = spec_feature_severity 1 3 (max_psi [⟨true, 3/5⟩, ⟨false, 1/10⟩, ⟨false, 0⟩]) ∧
    assess_drift_severity [⟨true, 3/5⟩, ⟨false, 1/10⟩, ⟨false, 0⟩] = "high" := by
  have h := claim_c5_feature_severity [⟨true, 3/5⟩, ⟨false, 1/10⟩, ⟨false, 0⟩]
    (by simp)
  refine ⟨by simp, ?_, ?_⟩
  · have hf : flagged_count [⟨true, 3/5⟩, ⟨false, 1/10⟩, ⟨false, 0⟩] = 1 := by decide
    have hl : ([⟨true, 3/5⟩, ⟨false, 1/10⟩, ⟨false, 0⟩] : List FeatureDriftRecord).length
        = 3 := rfl
    rw [h, hf, hl]
  · rw [h]
    have hm : max_psi [⟨true, 3/5⟩, ⟨false, 1/10⟩, ⟨false, 0⟩] = 3/5 := by
      norm_num [max_psi, List.foldl]
    rw [hm]
    norm_num [spec_feature_severity, qltB]

/-! ## Drift Detector: _calculate_psi (drift_detector.py 333-371)

The natural logarithm is kept abstract (a parameter lg : ℚ → ℚ): every PSI
fact below holds for all lg, because each summand of PSI(A, A) is
(p - p) * lg (p / p) = 0 and the constant-feature branch never reaches lg. -/

/-- numpy min over a list; none for the empty array (where numpy raises and
the except-branch of _calculate_psi returns 0). -/
def list_min : List ℚ → Option ℚ
  | [] => none
  | x :: xs => some (xs.foldl min x)

/-- numpy max over a list. -/
def list_max : List ℚ → Option ℚ
  | [] => none
  | x :: xs => some (xs.foldl max x)

/-- np.linspace(mn, mx, bins+1): the i-th breakpoint. -/
def bin_edge (mn mx : ℚ) (bins i : Nat) : ℚ :=
  mn + (mx - mn) * i / bins

/-- One bin of np.histogram with explicit breakpoints: half-open except the
last bin, which is closed. -/
def bin_count (vals : List ℚ) (lo hi : ℚ) (isLast : Bool) : Nat :=
  (vals.filter (fun x =>
    decide (lo ≤ x) && (if isLast then decide (x ≤ hi) else decide (x < hi)))).length

/-- np.histogram(values, bins=breakpoints): counts per bin. -/
def histogram_counts (vals : List ℚ) (mn mx : ℚ) (bins : Nat) : List Nat :=
  (List.range bins).map (fun i =>
    bin_count vals (bin_edge mn mx bins i) (bin_edge mn mx bins (i + 1))
      (i == bins - 1))

/-- The epsilon of drift_detector.py line 358. -/
def psi_epsilon : ℚ := 1 / 10 ^ 10

/-- Bin proportions with epsilon smoothing (lines 359-360). -/
def bin_proportions (counts : List Nat) (n : Nat) (bins : Nat) : List ℚ :=
  counts.map (fun c => ((c : ℚ) + psi_epsilon) / ((n : ℚ) + psi_epsilon * bins))

/-- DriftDetector._calculate_psi (lines 333-371): 0 when either sample is
empty (numpy raises on an empty min/max and the except-branch returns 0.0),
0 when the combined min equals the combined max (constant feature), otherwise
Σ (curr_pct − ref_pct) · lg(curr_pct / ref_pct) over the 10 bins. -/
def calculate_psi (lg : ℚ → ℚ) (reference current : List ℚ) (bins : Nat := 10) : ℚ :=
  match list_min reference, list_min current, list_max reference, list_max current with
  | some rmn, some cmn, some rmx, some cmx =>
      let mn := min rmn cmn
      let mx := max rmx cmx
      if mn == mx then 0
      else
        let refCounts := histogram_counts reference mn mx bins
        let curCounts := histogram_counts current mn mx bins
        let refProps := bin_proportions refCounts reference.length bins
        let curProps := bin_proportions curCounts current.length bins
        (List.zip curProps refProps).foldl
          (fun acc pr => acc + (pr.1 - pr.2) * lg (pr.1 / pr.2)) 0
  | _, _, _, _ => 0

/-- Folding the PSI summand over a self-zipped list adds nothing: each term is
(p - p) * lg(p / p) = 0. -/
theorem psi_foldl_zip_self (lg : ℚ → ℚ) (xs : List ℚ) (a : ℚ) :
    (List.zip xs xs).foldl (fun acc pr => acc + (pr.1 - pr.2) * lg (pr.1 / pr.2)) a
      = a := by
  induction xs generalizing a with
  | nil => rfl
  | cons x rest ih =>
      have hstep : a + (x - x) * lg (x / x) = a := by ring
      simpa [List.zip, hstep] using ih a

/-- Folding min over copies of the same value is the value. -/
theorem foldl_min_replicate (k : Nat) (c : ℚ) :
    (List.replicate k c).foldl min c = c := by
  induction k with
  | zero => rfl
  | succ n ih => simpa [List.replicate] using ih

/-- Folding max over copies of the same value is the value. -/
theorem foldl_max_replicate (k : Nat) (c : ℚ) :
    (List.replicate k c).foldl max c = c := by
  induction k with
  | zero => rfl
  | succ n ih => simpa [List.replicate] using ih

end BtcMlops

namespace BtcMlops

/-- Claim C6: PSI of a sample against itself is zero for every sample and any
logarithm, and a feature constant across both windows (every value equals the
same c, so the combined min equals the combined max) yields PSI 0 through the
min==max fallback rather than raising or reaching a division or logarithm. -/
theorem claim_c6_psi_self_zero :
    (∀ (lg : ℚ → ℚ) (A : List ℚ) (bins : Nat), calculate_psi lg A A bins = 0) ∧
    (∀ (lg : ℚ → ℚ) (c : ℚ) (n m bins : Nat),
      calculate_psi lg (List.replicate n c) (List.replicate m c) bins = 0) := by
  constructor
  · intro lg A bins
    cases A with
    | nil => rfl
    | cons x xs =>
        simp only [calculate_psi, list_min, list_max]
        split
        · rfl
        · exact psi_foldl_zip_self lg _ 0
  · intro lg c n m bins
    cases n with
    | zero => rfl
    | succ n' =>
        cases m with
        | zero => rfl
        | succ m' =>
            simp only [calculate_psi, List.replicate, list_min, list_max,
              foldl_min_replicate, foldl_max_replicate, min_self, max_self,
              beq_self_eq_true, if_true]

/-! ## Retraining controller: retrain_model (automated_retraining.py 101-244)
and _compare_with_current_model (lines 420-463)

The external collaborators (data loading, target generation, data
preparation, trainer, evaluation, ledger accuracy, model persistence) are
modelled as Except-valued slots of an environment: an error value is a raised
Python exception, caught by the try/except of retrain_model. -/

/-- Outcome of _compare_with_current_model: cold start (no incumbent accuracy,
new_is_better True, accuracy_improvement None), a normal numeric comparison,
or the except-branch dict of lines 458-463 (new_is_better False and no
accuracy_improvement key at all). -/
inductive CompareOutcome where
  | coldStart
  | normal (improvement : ℚ)
  | failed (err : String)
  deriving DecidableEq, Repr

/-- The new_is_better entry of the comparison dict. -/
def compare_new_is_better : CompareOutcome → Bool
  | .coldStart => true
  | .normal improvement => decide (0 < improvement)
  | .failed _ => false

/-- The accuracy_improvement entry: None on cold start, absent (KeyError when
read) on the except-branch. -/
def compare_improvement : CompareOutcome → Except String (Option ℚ)
  | .coldStart => .ok none
  | .normal improvement => .ok (some improvement)
  | .failed _ => .error "KeyError: accuracy_improvement"

/-- AutomatedRetraining._compare_with_current_model (lines 420-463) as a
function of the incumbent accuracy delivered by the ledger (error = the
lookup itself raised) and the new model's test accuracy: new_is_better iff
test accuracy strictly exceeds the incumbent live accuracy, automatically
better when none is available. -/
def compare_with_current_model (currentAccuracy : Except String (Option ℚ))
    (newTestAccuracy : ℚ) : CompareOutcome :=
  match currentAccuracy with
  | .error e => .failed e
  | .ok none => .coldStart
  | .ok (some current) => .normal (newTestAccuracy - current)

/-- Step 7 of retrain_model (lines 189-198): the deployment decision and its
reason string. Formatting the reason interpolates accuracy_improvement with
the .2% float format, which raises TypeError on None (cold start) and
KeyError when the comparison dict has no such key (comparison except-branch);
those raises escape to the outer try/except. -/
def deployment_step (deployIfBetter : Bool) (c : CompareOutcome) :
    Except String (Bool × String) :=
  if deployIfBetter then
    if compare_new_is_better c then
      match compare_improvement c with
      | .error e => .error e
      | .ok none =>
          .error "unsupported format string passed to NoneType.__format__"
      | .ok (some _) => .ok (true, "New model outperforms current")
    else
      match compare_improvement c with
      | .error e => .error e
      | .ok none => .error "bad operand type for abs: NoneType"
      | .ok (some _) => .ok (false, "New model underperforms current")
  else .ok (false, "")

/-- Environment of one retrain_model run: each collaborator call either
returns a value or raises. loadFeatures yields None or the loaded sample
count; trainSucceeded is the truthiness of the trainer result. -/
structure RetrainEnv where
  loadFeatures : Except String (Option Nat)
  createTarget : Except String Unit
  prepareData : Except String Unit
  trainSucceeded : Except String Bool
  evalTestAccuracy : Except String ℚ
  currentAccuracy : Except String (Option ℚ)
  saveModel : Except String Unit

/-- The structured result dict of retrain_model. On the failure dicts of the
source there is no deployment entry and no model was saved; both are
modelled as false. -/
structure RetrainResult where
  success : Bool
  error : Option String
  deployed : Bool
  deploymentReason : Option String
  modelSaved : Bool
  newIsBetter : Option Bool
  deriving DecidableEq, Repr

/-- The {success: False, error: ...} dict returned on an aborted attempt. -/
def fail_result (msg : String) : RetrainResult :=
  { success := false, error := some msg, deployed := false
    deploymentReason := none, modelSaved := false, newIsBetter := none }

/-- The body of the try-block of retrain_model (lines 121-234): steps 1-8 in
source order; an error value is an uncaught exception inside the try. -/
def retrain_go (env : RetrainEnv) (deployIfBetter : Bool) :
    Except String RetrainResult :=
  match env.loadFeatures with
  | .error e => .error e
  | .ok none => .ok (fail_result "Insufficient data for retraining")
  | .ok (some sampleCount) =>
    if sampleCount < min_samples_required then
      .ok (fail_result "Insufficient data for retraining")
    else
      match env.createTarget with
      | .error e => .error e
      | .ok _ =>
        match env.prepareData with
        | .error e => .error e
        | .ok _ =>
          match env.trainSucceeded with
          | .error e => .error e
          | .ok false => .ok (fail_result "Model training failed")
          | .ok true =>
            match env.evalTestAccuracy with
            | .error e => .error e
            | .ok testAccuracy =>
              let comparison :=
                compare_with_current_model env.currentAccuracy testAccuracy
              match deployment_step deployIfBetter comparison with
              | .error e => .error e
              | .ok dep =>
                match env.saveModel with
                | .error e => .error e
                | .ok _ =>
                  .ok { success := true, error := none
                        deployed := dep.1, deploymentReason := some dep.2
                        modelSaved := true
                        newIsBetter := some (compare_new_is_better comparison) }

/-- AutomatedRetraining.retrain_model (lines 101-244): the try-block wrapped
in the except-branch of lines 236-244, which converts any raise into a
structured {success: False, error: str(e)} dict. -/
def retrain_model (env : RetrainEnv) (deployIfBetter : Bool) : RetrainResult :=
  match retrain_go env deployIfBetter with
  | .ok r => r
  | .error e => fail_result e

end BtcMlops

namespace BtcMlops

/-- Claim C8: retrain_model never raises: every run produces a structured
result, and whenever it is not successful the result carries an error string
and no deployment occurred (the incumbent stays untouched); a successful run
carries no error. -/
theorem claim_c8_retrain_never_raises (env : RetrainEnv) (deployIfBetter : Bool) :
    ((retrain_model env deployIfBetter).success = false →
      (retrain_model env deployIfBetter).error.isSome = true ∧
      (retrain_model env deployIfBetter).deployed = false) ∧
    ((retrain_model env deployIfBetter).success = true →
      (retrain_model env deployIfBetter).error = none) := by
  rcases env with ⟨lf, ct, pd, ts, ev, ca, sv⟩
  rcases lf with e | n
  · simp [retrain_model, retrain_go, fail_result]
  · rcases n with _ | n
    · simp [retrain_model, retrain_go, fail_result]
    · by_cases hn : n < min_samples_required
      · simp [retrain_model, retrain_go, fail_result, hn]
      · rcases ct with e | u
        · simp [retrain_model, retrain_go, fail_result, hn]
        · rcases pd with e | u'
          · simp [retrain_model, retrain_go, fail_result, hn]
          · rcases ts with e | b
            · simp [retrain_model, retrain_go, fail_result, hn]
            · rcases b with _ | _
              · simp [retrain_model, retrain_go, fail_result, hn]
              · rcases ev with e | acc
                · simp [retrain_model, retrain_go, fail_result, hn]
                · rcases hd : deployment_step deployIfBetter
                      (compare_with_current_model ca acc) with e | dep
                  · simp [retrain_model, retrain_go, fail_result, hn, hd]
                  · rcases sv with e | u''
                    · simp [retrain_model, retrain_go, fail_result, hn, hd]
                    · simp [retrain_model, retrain_go, fail_result, hn, hd]

/-- Environment of a failing run: the trainer raised. -/
def env_trainer_error : RetrainEnv :=
  { loadFeatures := .ok (some 150), createTarget := .ok ()
    prepareData := .ok (), trainSucceeded := .error "TrainerError: boosting failed"
    evalTestAccuracy := .ok (7/10), currentAccuracy := .ok (some (6/10))
    saveModel := .ok () }

/-- Witness for C8: the trainer-raised run returns a structured failure with
an error string and no deployment. -/
theorem claim_c8_witness :
    (retrain_model env_trainer_error true).success = false ∧
    (retrain_model env_trainer_error true).error.isSome = true ∧
    (retrain_model env_trainer_error true).deployed = false := by
  have h := (claim_c8_retrain_never_raises env_trainer_error true).1 (by decide)
  exact ⟨by decide, h.1, h.2⟩

/-- Environment of a cold-start run: training succeeds with test accuracy
0.65 but the ledger has no incumbent accuracy for the 7-day window. -/
def env_cold_start : RetrainEnv :=
  { loadFeatures := .ok (some 150), createTarget := .ok ()
    prepareData := .ok (), trainSucceeded := .ok true
    evalTestAccuracy := .ok (13/20), currentAccuracy := .ok none
    saveModel := .ok () }

/-- Environment of the incumbent-better run: test accuracy 0.68 against live
incumbent accuracy 0.71. -/
def env_incumbent_better : RetrainEnv :=
  { loadFeatures := .ok (some 150), createTarget := .ok ()
    prepareData := .ok (), trainSucceeded := .ok true
    evalTestAccuracy := .ok (68/100), currentAccuracy := .ok (some (71/100))
    saveModel := .ok () }

/-- Claim C7 (code bug): on cold start the comparison does report
new_is_better = True, but with deploy_if_better = True the deployment-reason
f-string formats the None accuracy_improvement with .2%, raising TypeError;
the run therefore returns success = False with that error, nothing is
deployed and the artifact is not saved — contradicting the claim that
deployment.deployed equals new_is_better. In the normal incumbent-better case
(test 0.68 vs live 0.71) the claim behaviour does hold: success, not
deployed, artifact saved. -/
theorem claim_c7_cold_start_format_crash :
    compare_with_current_model (Except.ok none) (13/20) = CompareOutcome.coldStart ∧
    compare_new_is_better (compare_with_current_model (Except.ok none) (13/20)) = true ∧
    retrain_model env_cold_start true
      = fail_result "unsupported format string passed to NoneType.__format__" ∧
    (retrain_model env_cold_start true).deployed = false ∧
    (retrain_model env_cold_start true).modelSaved = false ∧
    (retrain_model env_incumbent_better true).success = true ∧
    (retrain_model env_incumbent_better true).newIsBetter = some false ∧
    (retrain_model env_incumbent_better true).deployed = false ∧
    (retrain_model env_incumbent_better true).modelSaved = true := by
  refine ⟨rfl, rfl, rfl, rfl, rfl, ?_, ?_, ?_, ?_⟩
  · norm_num [retrain_model, retrain_go, env_incumbent_better, min_samples_required,
      compare_with_current_model, deployment_step, compare_new_is_better,
      compare_improvement]
  · norm_num [retrain_model, retrain_go, env_incumbent_better, min_samples_required,
      compare_with_current_model, deployment_step, compare_new_is_better,
      compare_improvement]
  · norm_num [retrain_model, retrain_go, env_incumbent_better, min_samples_required,
      compare_with_current_model, deployment_step, compare_new_is_better,
      compare_improvement]
  · norm_num [retrain_model, retrain_go, env_incumbent_better, min_samples_required,
      compare_with_current_model, deployment_step, compare_new_is_better,
      compare_improvement]

/-! ## Prediction Ledger: get_model_accuracy (prediction_logger.py 234-326) -/

/-- The query of get_model_accuracy (lines 256-265): rows of the feature set
and model type predicted at or after the cutoff whose prediction_correct is
not NULL. -/
def accuracy_window (logs : List PredLog) (fs mt : String) (cutoff : Int) :
    List PredLog :=
  logs.filter (fun p => p.feature_set == fs && p.model_type == mt
    && decide (cutoff ≤ p.predicted_at) && p.prediction_correct.isSome)

/-- The metric dict of get_model_accuracy. The no-data early return of lines
267-274 carries total 0 and accuracy None. -/
structure AccuracyStats where
  total_predictions : Nat
  correct_predictions : Nat
  accuracy : Option ℚ
  up_predictions : Nat
  up_correct : Nat
  up_accuracy : ℚ
  down_predictions : Nat
  down_correct : Nat
  down_accuracy : ℚ
  avg_confidence : ℚ
  deriving DecidableEq, Repr

/-- PredictionLogger.get_model_accuracy (lines 234-326): overall accuracy and
the per-direction breakdown, with the up set the rows predicting 1 and the
down set the rows predicting 0 (lines 282-283). -/
def get_model_accuracy (logs : List PredLog) (fs mt : String) (cutoff : Int) :
    AccuracyStats :=
  let preds := accuracy_window logs fs mt cutoff
  if preds.isEmpty then
    { total_predictions := 0, correct_predictions := 0, accuracy := none
      up_predictions := 0, up_correct := 0, up_accuracy := 0
      down_predictions := 0, down_correct := 0, down_accuracy := 0
      avg_confidence := 0 }
  else
    let total := preds.length
    let correct := correct_count preds
    let ups := preds.filter (fun p => p.prediction == 1)
    let downs := preds.filter (fun p => p.prediction == 0)
    let upCorrect := correct_count ups
    let downCorrect := correct_count downs
    { total_predictions := total
      correct_predictions := correct
      accuracy := some ((correct : ℚ) / total)
      up_predictions := ups.length
      up_correct := upCorrect
      up_accuracy := if ups.isEmpty then 0 else (upCorrect : ℚ) / ups.length
      down_predictions := downs.length
      down_correct := downCorrect
      down_accuracy := if downs.isEmpty then 0 else (downCorrect : ℚ) / downs.length
      avg_confidence := (preds.map (fun p => p.confidence)).sum / total }

/-- Splitting a list of binary predictions by direction loses nothing. -/
theorem length_filter_up_down (l : List PredLog)
    (h : ∀ p ∈ l, p.prediction = 0 ∨ p.prediction = 1) :
    (l.filter (fun p => p.prediction == 1)).length
      + (l.filter (fun p => p.prediction == 0)).length = l.length := by
  induction l with
  | nil => rfl
  | cons p rest ih =>
      have hp := h p (List.mem_cons_self p rest)
      have ih' := ih (fun q hq => h q (List.mem_cons_of_mem p hq))
      rcases hp with h0 | h1
      · simp only [List.filter_cons, h0]
        norm_num
        omega
      · simp only [List.filter_cons, h1]
        norm_num
        omega

end BtcMlops

namespace BtcMlops

/-- Claim C9: over the predictions with recorded outcomes matching the
feature set, model type and window, get_model_accuracy reports the window
size as total, accuracy = correct/N exactly (None when the window is empty,
together with total 0), and the up/down direction counts partition N whenever
every prediction is binary. -/
theorem claim_c9_accuracy_exact (logs : List PredLog) (fs mt : String)
    (cutoff : Int) :
    (accuracy_window logs fs mt cutoff = [] →
      (get_model_accuracy logs fs mt cutoff).total_predictions = 0 ∧
      (get_model_accuracy logs fs mt cutoff).accuracy = none) ∧
    (accuracy_window logs fs mt cutoff ≠ [] →
      (get_model_accuracy logs fs mt cutoff).total_predictions
        = (accuracy_window logs fs mt cutoff).length ∧
      (get_model_accuracy logs fs mt cutoff).accuracy
        = some ((correct_count (accuracy_window logs fs mt cutoff) : ℚ)
            / (accuracy_window logs fs mt cutoff).length)) ∧
    ((∀ p ∈ accuracy_window logs fs mt cutoff, p.prediction = 0 ∨ p.prediction = 1) →
      (get_model_accuracy logs fs mt cutoff).up_predictions
        + (get_model_accuracy logs fs mt cutoff).down_predictions
        = (accuracy_window logs fs mt cutoff).length) := by
  refine ⟨?_, ?_, ?_⟩
  · intro h
    have h1 : (accuracy_window logs fs mt cutoff).isEmpty = true := by
      simp [List.isEmpty_iff, h]
    simp [get_model_accuracy, h1]
  · intro h
    have h1 : (accuracy_window logs fs mt cutoff).isEmpty = false := by
      simp [List.isEmpty_iff, h]
    simp only [get_model_accuracy, h1, Bool.false_eq_true, if_false]
    exact ⟨trivial, trivial⟩
  · intro hbin
    by_cases h : accuracy_window logs fs mt cutoff = []
    · have h1 : (accuracy_window logs fs mt cutoff).isEmpty = true := by
        simp [List.isEmpty_iff, h]
      simp [get_model_accuracy, h1, h]
    · have h1 : (accuracy_window logs fs mt cutoff).isEmpty = false := by
        simp [List.isEmpty_iff, h]
      simp only [get_model_accuracy, h1, Bool.false_eq_true, if_false]
      exact length_filter_up_down _ hbin

/-- Witness for C9 at the concrete scenario history: its full window has 8
predictions, 4 of them correct, all binary. -/
theorem claim_c9_witness :
    accuracy_window scenario_logs "vader" "random_forest" 0 ≠ [] ∧
    (∀ p ∈ accuracy_window scenario_logs "vader" "random_forest" 0,
      p.prediction = 0 ∨ p.prediction = 1) ∧
    (get_model_accuracy scenario_logs "vader" "random_forest" 0).total_predictions = 8 ∧
    (get_model_accuracy scenario_logs "vader" "random_forest" 0).accuracy
      = some (1/2) ∧
    (get_model_accuracy scenario_logs "vader" "random_forest" 0).up_predictions
      + (get_model_accuracy scenario_logs "vader" "random_forest" 0).down_predictions
      = 8 := by
  have h := claim_c9_accuracy_exact scenario_logs "vader" "random_forest" 0
  have hne : accuracy_window scenario_logs "vader" "random_forest" 0 ≠ [] := by decide
  have hbin : ∀ p ∈ accuracy_window scenario_logs "vader" "random_forest" 0,
      p.prediction = 0 ∨ p.prediction = 1 := by decide
  have hlen : (accuracy_window scenario_logs "vader" "random_forest" 0).length = 8 := by
    decide
  have hcc : correct_count (accuracy_window scenario_logs "vader" "random_forest" 0)
      = 4 := by decide
  refine ⟨hne, hbin, ?_, ?_, ?_⟩
  · rw [(h.2.1 hne).1, hlen]
  · rw [(h.2.1 hne).2, hcc, hlen]
    norm_num
  · rw [h.2.2 hbin, hlen]

/-! ## Drift summary severity versus the controller drift check
(drift_detector.py 398-446 and automated_retraining.py 332-372) -/

/-- Python list.index over a list of strings: position of the first match;
callers below only use it under a membership guard or on a present element.
On an absent element it returns the length (the guarded callers never see
this). -/
def list_index : List String → String → Nat
  | [], _ => 0
  | o :: os, s => if o == s then 0 else list_index os s + 1

/-- severity_order.index(s) if s in severity_order else 0, the guarded lookup
used by both files (drift_detector.py 427-430, automated_retraining.py 349). -/
def py_index_or0 (order : List String) (s : String) : Nat :=
  if order.contains s then list_index order s else 0

/-- The severity ordering of get_drift_summary (drift_detector.py line 426):
unknown ranks above high. -/
def severity_order5 : List String := ["none", "low", "medium", "high", "unknown"]

/-- The severity ordering of _check_drift (automated_retraining.py line 347):
no unknown rank. -/
def severity_order4 : List String := ["none", "low", "medium", "high"]

/-- AutomatedRetraining.drift_severity_threshold (line 41). -/
def drift_severity_threshold : String := "medium"

/-- DriftDetector.get_drift_summary severity combination (lines 421-431):
each sub-result's drift_severity defaults to "unknown" when the key is
absent (insufficient-data or error status), and the overall severity is the
order-5 maximum of the two. -/
def overall_severity (featureSev modelSev : Option String) : String :=
  let f := featureSev.getD "unknown"
  let m := modelSev.getD "unknown"
  let fi := py_index_or0 severity_order5 f
  let mi := py_index_or0 severity_order5 m
  severity_order5.getD (max fi mi) ""

/-- AutomatedRetraining._check_drift trigger test (lines 345-357): the overall
severity is ranked in the 4-element order, any string outside it (such as
"unknown") ranking 0, and fires when the rank reaches the medium threshold. -/
def check_drift_fires (overallSeverity : String) : Bool :=
  let thresholdIdx := list_index severity_order4 drift_severity_threshold
  let currentIdx := py_index_or0 severity_order4 overallSeverity
  decide (thresholdIdx ≤ currentIdx)

/-- _check_drift as a sub-check result for the should_retrain decision. -/
def check_drift (overallSeverity : String) : CheckResult :=
  if check_drift_fires overallSeverity then
    { retrain_flag := true
      reason := some ("Drift detected: " ++ overallSeverity ++ " severity") }
  else
    { retrain_flag := false, reason := none }

/-- A hit of list_index under a membership guard is within the list. -/
theorem list_index_lt_length (l : List String) (s : String)
    (h : l.contains s = true) : list_index l s < l.length := by
  induction l with
  | nil => simp [List.contains] at h
  | cons o os ih =>
      by_cases ho : o = s
      · simp [list_index, ho]
      · have h' : os.contains s = true := by
          rw [List.contains_cons] at h
          have h2 : s = o ∨ os.contains s = true := by simpa using h
          rcases h2 with h1 | h1
          · exact absurd h1.symm ho
          · exact h1
        have hb : (o == s) = false := beq_eq_false_iff_ne.mpr ho
        simp only [list_index, hb, Bool.false_eq_true, if_false, List.length_cons]
        exact Nat.succ_lt_succ (ih h')

/-- The guarded 5-element severity rank never exceeds 4. -/
theorem py_index_or0_le_four (s : String) : py_index_or0 severity_order5 s ≤ 4 := by
  by_cases h : severity_order5.contains s
  · have := list_index_lt_length severity_order5 s h
    simp only [py_index_or0, h, if_true]
    simpa [severity_order5] using Nat.lt_succ_iff.mp this
  · unfold py_index_or0
    rw [if_neg h]
    exact Nat.zero_le 4

end BtcMlops

namespace BtcMlops

/-- Claim C10: whenever either drift sub-check returns a result without a
drift_severity entry (its insufficient-data or error status, e.g. the
insufficient constructor of detect_model_drift), the summary's overall
severity is "unknown", which the summary ordering ranks above "high"; the
controller's _check_drift ranks any severity outside its 4-value scale at the
bottom, so such a summary never triggers drift-based retraining. -/
theorem claim_c10_unknown_severity_no_trigger :
    (∀ featureSev modelSev : Option String,
      featureSev = none ∨ modelSev = none →
      overall_severity featureSev modelSev = "unknown" ∧
      check_drift_fires (overall_severity featureSev modelSev) = false ∧
      (check_drift (overall_severity featureSev modelSev)).retrain_flag = false) ∧
    list_index severity_order5 "high" < list_index severity_order5 "unknown" ∧
    (∀ msg, md_severity (ModelDriftResult.insufficient msg) = none) := by
  have hover : ∀ featureSev modelSev : Option String,
      featureSev = none ∨ modelSev = none →
      overall_severity featureSev modelSev = "unknown" := by
    intro fS mS h
    have hunk : py_index_or0 severity_order5 "unknown" = 4 := by decide
    rcases h with h | h
    · subst h
      have hm := py_index_or0_le_four (mS.getD "unknown")
      have hmax : max (py_index_or0 severity_order5 "unknown")
          (py_index_or0 severity_order5 (mS.getD "unknown")) = 4 := by
        rw [hunk]
        omega
      simp only [overall_severity, Option.getD_none, hmax]
      rfl
    · subst h
      have hf := py_index_or0_le_four (fS.getD "unknown")
      have hmax : max (py_index_or0 severity_order5 (fS.getD "unknown"))
          (py_index_or0 severity_order5 "unknown") = 4 := by
        rw [hunk]
        omega
      simp only [overall_severity, Option.getD_none, hmax]
      rfl
  refine ⟨?_, by decide, fun msg => rfl⟩
  intro fS mS h
  have ho := hover fS mS h
  refine ⟨ho, ?_, ?_⟩
  · rw [ho]
    decide
  · rw [ho]
    decide

/-- Witness for C10: a model-drift insufficient-data status (no severity key)
combined with a healthy feature-drift severity of "none" yields an "unknown"
summary that does not fire the drift trigger. -/
theorem claim_c10_witness :
    overall_severity (some "none") none = "unknown" ∧
    check_drift_fires (overall_severity (some "none") none) = false ∧
    (check_drift (overall_severity (some "none") none)).retrain_flag = false :=
  claim_c10_unknown_severity_no_trigger.1 (some "none") none (Or.inr rfl)

end BtcMlops
